import Mathlib

/-!
# Verification of the Timely-Hub reminder scheduling subsystem

Shallow embedding of `src/services/schedulerService.ts` and of the
ISO-8601 timestamp rendering used by its due-window query.

The scheduler state, the scan-dispatch-mark cycle, the manual trigger and
the administrative reset are translated from the TypeScript source.
External collaborators (the Mongo store's availability, the notification
transport) are modelled as explicit oracles: a `Bool` saying whether the
store query succeeds, and a function from reminder id to dispatch outcome.
Timestamps are modelled as natural numbers of milliseconds; the agreement
between chronological order and the lexicographic order of the ISO-8601
strings actually passed to the query is proved separately on a component
model of JavaScript `Date` instants.
-/

/-- A reminder document, as used by the scheduler: an id (`_id`), the
owning user, a title, the due datetime (milliseconds since epoch) and the
`notified` flag, which may be absent (`none`), `some false` or
`some true`.  The Mongo filter `notified: { $ne: true }` matches the
first two cases. -/
structure Reminder where
  rid : Nat
  userId : Nat
  title : String
  datetime : Nat
  notified : Option Bool
deriving DecidableEq, Repr

/-- The 5-minute lookahead window of the scan query, in milliseconds
(`5 * 60 * 1000` in the source). -/
def lookaheadMs : Nat := 5 * 60 * 1000

/-- The scan step (`Reminder.find` with `datetime: {$gte: now, $lte: now+5min},
notified: {$ne: true}`): keep exactly the reminders whose datetime lies in
the closed window `[now, now + lookaheadMs]` and whose `notified` flag is
not `true`. -/
def scanDue (now : Nat) (rs : List Reminder) : List Reminder :=
  rs.filter fun r =>
    decide (now ≤ r.datetime) && decide (r.datetime ≤ now + lookaheadMs) &&
      decide (r.notified ≠ some true)

/-- Setting `reminder.notified = true` on the in-memory document. -/
def markNotified (r : Reminder) : Reminder :=
  { r with notified := some true }

/-- The mark step (`reminder.notified = true; await reminder.save()`):
Mongoose `save()` issues an update keyed on `_id` alone.  If a document
with that id still exists, the write goes through unconditionally (the
returned `Nat` is the matched-document count); if the document was deleted
in the meantime, `save()` rejects with a document-not-found error. -/
def saveNotified (i : Nat) (rs : List Reminder) : Except String (List Reminder × Nat) :=
  if rs.any (fun r => r.rid = i) then
    .ok (rs.map (fun r => if r.rid = i then markNotified r else r), 1)
  else
    .error "No document found for query"

/-- The per-reminder loop of `checkAndSendReminders`: for each reminder of
the scan snapshot, attempt the dispatch (`send`), and on success save the
`notified` flag; any error of the dispatch or of the save is caught by the
per-reminder `try/catch` and the loop continues with the next reminder.
Returns the final store and the list of reminder ids for which a dispatch
send was attempted, in order. -/
def processLoop (send : Nat → Bool) :
    List Reminder → List Reminder → List Nat → List Reminder × List Nat
  | [], rs, acc => (rs, acc)
  | r :: rest, rs, acc =>
    if send r.rid then
      match saveNotified r.rid rs with
      | .ok (rs', _) => processLoop send rest rs' (acc ++ [r.rid])
      | .error _ => processLoop send rest rs (acc ++ [r.rid])
    else
      processLoop send rest rs (acc ++ [r.rid])

/-- The body of `checkAndSendReminders` before its outer `try/catch`: the
store query may fail (`storeUp = false`, the promise rejects), otherwise
the scan result is processed sequentially.  An empty scan result returns
early with no side effects. -/
def checkBody (storeUp : Bool) (send : Nat → Bool) (now : Nat) (rs : List Reminder) :
    Except String (List Reminder × List Nat) :=
  if storeUp then .ok (processLoop send (scanDue now rs) rs []) else .error "query error"

/-- `checkAndSendReminders` with its outer `try/catch`: a scan failure is
caught and logged, leaving the store unchanged with no dispatch attempts. -/
def checkAndSendReminders (storeUp : Bool) (send : Nat → Bool) (now : Nat)
    (rs : List Reminder) : List Reminder × List Nat :=
  match checkBody storeUp send now rs with
  | .ok res => res
  | .error _ => (rs, [])

/-- `checkAndSendReminders` viewed as a fallible computation (the returned
promise): the outer `catch` converts every rejection of the body into a
successful resolution. -/
def checkAndSendRemindersE (storeUp : Bool) (send : Nat → Bool) (now : Nat)
    (rs : List Reminder) : Except String (List Reminder × List Nat) :=
  match checkBody storeUp send now rs with
  | .ok res => .ok res
  | .error _ => .ok (rs, [])

/-- `triggerManualCheck` logs and awaits `checkAndSendReminders` with no
`try/catch` of its own: its promise rejects exactly when the checked call
rejects. -/
def triggerManualCheckE (storeUp : Bool) (send : Nat → Bool) (now : Nat)
    (rs : List Reminder) : Except String (List Reminder × List Nat) :=
  checkAndSendRemindersE storeUp send now rs

/-- The effect of `Reminder.updateMany({notified: true}, {$unset: {notified: 1}})`:
every reminder whose flag is `true` has the field removed (becomes absent). -/
def resetAll (rs : List Reminder) : List Reminder :=
  rs.map fun r => if r.notified = some true then { r with notified := none } else r

/-- `resetAllNotifications` with its `try/catch`: the `updateMany` may
fail (`storeUp = false`), in which case the error is caught and logged and
the store is unchanged; the promise always resolves. -/
def resetAllNotificationsE (storeUp : Bool) (rs : List Reminder) :
    Except String (List Reminder) :=
  if storeUp then .ok (resetAll rs) else .ok rs

/-- Scheduler lifecycle state: the private `isRunning` flag and the list
of periods (ms) of the cron tasks that have been scheduled and never
destroyed (the source stores no task reference and node-cron tasks are
not stopped anywhere). -/
structure SchedulerState where
  isRunning : Bool
  jobs : List Nat
deriving DecidableEq, Repr

/-- The period of the `'* * * * *'` cron expression: one tick per minute. -/
def cronEveryMinuteMs : Nat := 60000

/-- `startScheduler()`: if already running, log and return unchanged;
otherwise schedule a cron task firing every minute and set the flag. -/
def startScheduler (s : SchedulerState) : SchedulerState :=
  if s.isRunning then s
  else { isRunning := true, jobs := cronEveryMinuteMs :: s.jobs }

/-- `stopScheduler()`: sets `isRunning := false` and logs; the scheduled
cron tasks are not destroyed (the source keeps no reference to them). -/
def stopScheduler (s : SchedulerState) : SchedulerState :=
  { s with isRunning := false }

/-- A timer tick can fire exactly when at least one cron task is scheduled;
the tick callback invokes `checkAndSendReminders` without consulting the
`isRunning` flag. -/
def canTick (s : SchedulerState) : Bool :=
  !s.jobs.isEmpty

/-- The oracles of one scan-dispatch-mark cycle: the wall-clock time at
which it runs, whether the store query succeeds, and the dispatch outcome
per reminder id. -/
structure CycleInput where
  now : Nat
  storeUp : Bool
  send : Nat → Bool

/-- Run a sequence of cycles (timer-driven or manual) over the store,
collecting every dispatch attempt across all cycles. -/
def runCycles : List CycleInput → List Reminder → List Reminder × List Nat
  | [], rs => (rs, [])
  | c :: cs, rs =>
    let res := checkAndSendReminders c.storeUp c.send c.now rs
    let rest := runCycles cs res.1
    (rest.1, res.2 ++ rest.2)

/-- All reminders carrying a given id are already marked notified. -/
def allNotified (i : Nat) (rs : List Reminder) : Prop :=
  ∀ r ∈ rs, r.rid = i → r.notified = some true

/-- Mark a reminder notified when its id belongs to the given id list. -/
def markIfMem (s : List Nat) (r : Reminder) : Reminder :=
  if r.rid ∈ s then markNotified r else r

/-- The ids of the scanned reminders whose dispatch succeeds. -/
def okIds (send : Nat → Bool) (due : List Reminder) : List Nat :=
  (due.filter fun r => send r.rid).map fun r => r.rid

/-!
## ISO-8601 rendering of JavaScript `Date` instants

The due-window query passes `now.toISOString()` and
`fiveMinutesFromNow.toISOString()` as the `$gte`/`$lte` bounds.  An
instant is modelled by its UTC calendar components; `toISOString`
renders them in the fixed-width form `YYYY-MM-DDTHH:mm:ss.sssZ`
(JavaScript uses this form exactly for years 0 through 9999).
String comparison is byte-wise lexicographic, modelled on `List Char`.
-/

/-- The ASCII digit for `n < 10`. -/
def digitChar (n : Nat) : Char := Char.ofNat (48 + n)

/-- Zero-padded fixed-width decimal rendering, most significant digit
first: `padNum 4 7 = ['0','0','0','7']`. -/
def padNum : Nat → Nat → List Char
  | 0, _ => []
  | w + 1, n => digitChar (n / 10 ^ w % 10) :: padNum w (n % 10 ^ w)

/-- Byte-wise lexicographic strict order on character lists, as used by
binary string comparison. -/
def charLexLt : List Char → List Char → Bool
  | [], [] => false
  | [], _ :: _ => true
  | _ :: _, [] => false
  | a :: as, b :: bs => if a < b then true else if b < a then false else charLexLt as bs

/-- Lexicographic strict order on lists of naturals. -/
def natLexLt : List Nat → List Nat → Bool
  | [], [] => false
  | [], _ :: _ => true
  | _ :: _, [] => false
  | a :: as, b :: bs => if a < b then true else if b < a then false else natLexLt as bs

/-- `charLexLt` in non-strict form. -/
def charLexLe (xs ys : List Char) : Bool := !charLexLt ys xs

/-- A UTC instant given by its calendar components, as rendered by
JavaScript `Date.prototype.toISOString`. -/
structure DateTime where
  year : Nat
  month : Nat
  day : Nat
  hour : Nat
  minute : Nat
  second : Nat
  ms : Nat
deriving DecidableEq, Repr

/-- The component ranges of a real instant in the fixed-width era
(years 0–9999, the range where `toISOString` uses the 4-digit form). -/
def DateTime.Valid (d : DateTime) : Prop :=
  d.year ≤ 9999 ∧ 1 ≤ d.month ∧ d.month ≤ 12 ∧ 1 ≤ d.day ∧ d.day ≤ 31 ∧
    d.hour ≤ 23 ∧ d.minute ≤ 59 ∧ d.second ≤ 59 ∧ d.ms ≤ 999

/-- `toISOString`: the fixed-width rendering `YYYY-MM-DDTHH:mm:ss.sssZ`. -/
def DateTime.isoChars (d : DateTime) : List Char :=
  padNum 4 d.year ++ ('-' :: (padNum 2 d.month ++ ('-' :: (padNum 2 d.day ++
    ('T' :: (padNum 2 d.hour ++ (':' :: (padNum 2 d.minute ++ (':' :: (padNum 2 d.second ++
      ('.' :: (padNum 3 d.ms ++ ['Z']))))))))))))

/-- The calendar components, most significant first. -/
def DateTime.comps (d : DateTime) : List Nat :=
  [d.year, d.month, d.day, d.hour, d.minute, d.second, d.ms]

/-- Chronological strict order of instants: lexicographic on the
calendar components (year, then month, …, then millisecond). -/
def DateTime.chronoLt (a b : DateTime) : Bool := natLexLt a.comps b.comps

/-- Chronological non-strict order. -/
def DateTime.chronoLe (a b : DateTime) : Bool := !DateTime.chronoLt b a

theorem markIfMem_nil (r : Reminder) : markIfMem [] r = r := by
  simp [markIfMem]

theorem markIfMem_single (j : Nat) (s : List Nat) (x : Reminder) :
    markIfMem s (if x.rid = j then markNotified x else x) = markIfMem (j :: s) x := by
  by_cases h : x.rid = j
  · by_cases hm : x.rid ∈ s <;>
      simp [markIfMem, markNotified, h, hm, List.mem_cons]
  · by_cases hm : x.rid ∈ s <;>
      simp [markIfMem, h, hm, List.mem_cons]

/-- Every reminder of the due snapshot contributes exactly one dispatch
attempt, in order, regardless of dispatch or save failures. -/
theorem processLoop_attempts (send : Nat → Bool) (due : List Reminder) :
    ∀ rs acc, (processLoop send due rs acc).2 = acc ++ due.map (fun r => r.rid) := by
  induction due with
  | nil => intro rs acc; simp [processLoop]
  | cons r rest ih =>
    intro rs acc
    by_cases h : send r.rid
    · cases hs : saveNotified r.rid rs with
      | ok p => simp [processLoop, h, hs, ih]
      | error e => simp [processLoop, h, hs, ih]
    · simp [processLoop, h, ih]

/-- The store after the per-reminder loop: exactly the reminders whose id
is that of a scanned reminder with successful dispatch are marked
notified, the rest are untouched (a failed save leaves the store as it
was). -/
theorem processLoop_store (send : Nat → Bool) (due : List Reminder) :
    ∀ rs acc, (processLoop send due rs acc).1 = rs.map (markIfMem (okIds send due)) := by
  induction due with
  | nil =>
    intro rs acc
    have hfun : markIfMem [] = id := funext markIfMem_nil
    simp [processLoop, okIds, hfun]
  | cons r rest ih =>
    intro rs acc
    by_cases h : send r.rid
    · have hok : okIds send (r :: rest) = r.rid :: okIds send rest := by
        simp [okIds, List.filter_cons, h]
      by_cases hex : rs.any (fun x => x.rid = r.rid) = true
      · have hs : saveNotified r.rid rs =
            .ok (rs.map (fun x => if x.rid = r.rid then markNotified x else x), 1) := by
          simp [saveNotified, hex]
        rw [hok]
        simp only [processLoop, h, if_true, hs]
        rw [ih, List.map_map]
        exact List.map_congr_left fun x _ => markIfMem_single r.rid (okIds send rest) x
      · have hs : saveNotified r.rid rs = .error "No document found for query" := by
          simp [saveNotified, hex]
        rw [hok]
        simp only [processLoop, h, if_true, hs]
        rw [ih]
        refine List.map_congr_left fun x hx => ?_
        have hne : ¬(x.rid = r.rid) := by
          intro hc
          exact hex (List.any_eq_true.mpr ⟨x, hx, by simp [hc]⟩)
        have : (if x.rid = r.rid then markNotified x else x) = x := if_neg hne
        calc markIfMem (okIds send rest) x
            = markIfMem (okIds send rest) (if x.rid = r.rid then markNotified x else x) := by
              rw [this]
          _ = markIfMem (r.rid :: okIds send rest) x := markIfMem_single _ _ x
    · have hok : okIds send (r :: rest) = okIds send rest := by
        simp [okIds, List.filter_cons, h]
      rw [hok]
      simp only [processLoop, h, if_false]
      exact ih rs (acc ++ [r.rid])

/-- A successful cycle: the final store marks exactly the scanned
reminders whose dispatch succeeded, and every scanned reminder is
attempted once, in scan order. -/
theorem checkAndSend_run_eq (send : Nat → Bool) (now : Nat) (rs : List Reminder) :
    checkAndSendReminders true send now rs =
      (rs.map (markIfMem (okIds send (scanDue now rs))),
        (scanDue now rs).map fun r => r.rid) := by
  have h1 := processLoop_store send (scanDue now rs) rs []
  have h2 := (processLoop_attempts send (scanDue now rs) rs []).trans
    (List.nil_append _)
  show processLoop send (scanDue now rs) rs [] = _
  rw [← h1, ← h2]

theorem checkAndSend_down (send : Nat → Bool) (now : Nat) (rs : List Reminder) :
    checkAndSendReminders false send now rs = (rs, []) := rfl

theorem scanDue_notified_ne (now : Nat) (rs : List Reminder) :
    ∀ r ∈ scanDue now rs, r.notified ≠ some true := by
  intro r hr
  rw [scanDue, List.mem_filter] at hr
  have h := hr.2
  simp only [Bool.and_eq_true, decide_eq_true_eq] at h
  exact h.2

theorem markIfMem_rid (s : List Nat) (x : Reminder) : (markIfMem s x).rid = x.rid := by
  unfold markIfMem markNotified
  split <;> rfl

theorem allNotified_markIfMem (i : Nat) (s : List Nat) (rs : List Reminder)
    (h : allNotified i rs) : allNotified i (rs.map (markIfMem s)) := by
  intro r hr hrid
  rcases List.mem_map.mp hr with ⟨x, hx, rfl⟩
  rw [markIfMem_rid] at hrid
  unfold markIfMem
  by_cases hm : x.rid ∈ s
  · simp [hm, markNotified]
  · simp only [if_neg hm]
    exact h x hx hrid

/-- One cycle neither unsets `notified` nor dispatches a reminder all of
whose store records are already notified. -/
theorem cycle_allNotified (c : CycleInput) (i : Nat) (rs : List Reminder)
    (h : allNotified i rs) :
    allNotified i (checkAndSendReminders c.storeUp c.send c.now rs).1 ∧
      i ∉ (checkAndSendReminders c.storeUp c.send c.now rs).2 := by
  cases hb : c.storeUp
  · rw [checkAndSend_down]
    exact ⟨h, by simp⟩
  · rw [checkAndSend_run_eq]
    refine ⟨allNotified_markIfMem i _ rs h, ?_⟩
    intro hmem
    rcases List.mem_map.mp hmem with ⟨r, hr, hrid⟩
    have h1 : r.notified ≠ some true := scanDue_notified_ne c.now rs r hr
    have h2 : r ∈ rs := List.mem_of_mem_filter hr
    exact h1 (h r h2 hrid)

theorem runCycles_allNotified (cs : List CycleInput) :
    ∀ rs i, allNotified i rs →
      allNotified i (runCycles cs rs).1 ∧ i ∉ (runCycles cs rs).2 := by
  induction cs with
  | nil =>
    intro rs i h
    exact ⟨h, by simp [runCycles]⟩
  | cons c cs ih =>
    intro rs i h
    obtain ⟨h1, h2⟩ := cycle_allNotified c i rs h
    obtain ⟨h3, h4⟩ := ih _ i h1
    refine ⟨h3, ?_⟩
    simp only [runCycles, List.mem_append]
    rintro (hc | hc)
    · exact h2 hc
    · exact h4 hc

/-- C1 (as stated, refuted): with one due reminder whose dispatch fails,
two successive cycles each attempt the dispatch although `notified` stays
unset throughout — the send is attempted twice while `notified` is false,
contradicting "attempted at most once while its notified flag is false". -/
theorem c1_counterexample :
    (runCycles [⟨0, true, fun _ => false⟩, ⟨0, true, fun _ => false⟩]
        [⟨1, 7, "t", 60000, none⟩]).2 = [1, 1] ∧
      (runCycles [⟨0, true, fun _ => false⟩, ⟨0, true, fun _ => false⟩]
        [⟨1, 7, "t", 60000, none⟩]).1 = [⟨1, 7, "t", 60000, none⟩] :=
  ⟨rfl, rfl⟩

/-- C1 (amended): once `notified` is true for every record with a given
id, no cycle of any subsequent run ever attempts a dispatch for that id
(the flag is never unset by the loop); and within a single cycle over a
store with distinct ids each reminder is attempted at most once.  Across
cycles, however, a reminder whose dispatch failed (flag still unset) is
re-attempted once per cycle that scans it. -/
theorem c1_once_notified_no_redispatch :
    (∀ cs rs i, allNotified i rs → i ∉ (runCycles cs rs).2) ∧
      (∀ storeUp send now rs, (rs.map fun r => r.rid).Nodup →
        ((checkAndSendReminders storeUp send now rs).2).Nodup) := by
  constructor
  · intro cs rs i h
    exact (runCycles_allNotified cs rs i h).2
  · intro storeUp send now rs h
    cases storeUp
    · rw [checkAndSend_down]
      exact List.nodup_nil
    · rw [checkAndSend_run_eq]
      have hsub : List.Sublist ((scanDue now rs).map fun r => r.rid)
          (rs.map fun r => r.rid) :=
        List.Sublist.map _ (List.filter_sublist rs)
      exact List.Nodup.sublist hsub h

theorem c1_once_notified_no_redispatch_witness :
    (1 ∉ (runCycles [⟨0, true, fun _ => true⟩] [⟨1, 7, "t", 60000, some true⟩]).2) ∧
      ((checkAndSendReminders true (fun _ => true) 0
        [⟨1, 7, "t", 60000, none⟩, ⟨2, 8, "u", 70000, none⟩]).2).Nodup := by
  constructor
  · refine c1_once_notified_no_redispatch.1 [⟨0, true, fun _ => true⟩]
      [⟨1, 7, "t", 60000, some true⟩] 1 ?_
    intro r hr hrid
    rw [List.mem_singleton] at hr
    rw [hr]
  · refine c1_once_notified_no_redispatch.2 true (fun _ => true) 0
      [⟨1, 7, "t", 60000, none⟩, ⟨2, 8, "u", 70000, none⟩] ?_
    decide

/-- C2 (as stated, refuted): the mark step on a reminder deleted between
scan and mark rejects with a document-not-found error instead of being a
benign zero-affected no-op, and on a reminder that is already notified it
still matches and writes the record (affected count 1, not 0) — the save
is keyed on the id alone, with no compare-and-set on `notified`. -/
theorem c2_counterexample :
    saveNotified 1 [] = .error "No document found for query" ∧
      saveNotified 1 [⟨1, 7, "t", 0, some true⟩] =
        .ok ([⟨1, 7, "t", 0, some true⟩], 1) :=
  ⟨rfl, rfl⟩

/-- C2 (amended): the mark step is an unconditional `save()` keyed on the
reminder id — if any record with the id exists it writes `notified = true`
regardless of the record's current `notified` value, with matched count 1;
if no record with the id exists it rejects with an error; that error is
caught by the per-reminder handler, so the cycle continues with the store
unchanged. -/
theorem c2_mark_unconditional_save :
    (∀ i rs r, r ∈ rs → r.rid = i →
        saveNotified i rs =
          .ok (rs.map (fun x => if x.rid = i then markNotified x else x), 1)) ∧
      (∀ i rs, (∀ r ∈ rs, r.rid ≠ i) →
        saveNotified i rs = .error "No document found for query") ∧
      (∀ send r rest rs acc, (∀ x ∈ rs, x.rid ≠ r.rid) →
        processLoop send (r :: rest) rs acc = processLoop send rest rs (acc ++ [r.rid])) := by
  refine ⟨?_, ?_, ?_⟩
  · intro i rs r hr hrid
    have hx : rs.any (fun x => x.rid = i) = true :=
      List.any_eq_true.mpr ⟨r, hr, by simp [hrid]⟩
    simp [saveNotified, hx]
  · intro i rs h
    have hx : rs.any (fun x => x.rid = i) = false :=
      List.any_eq_false.mpr fun x hx => by simp [h x hx]
    simp [saveNotified, hx]
  · intro send r rest rs acc h
    have hx : rs.any (fun x => x.rid = r.rid) = false :=
      List.any_eq_false.mpr fun x hxm => by simp [h x hxm]
    by_cases hs : send r.rid = true
    · simp [processLoop, hs, saveNotified, hx]
    · simp [processLoop, hs]

theorem c2_mark_unconditional_save_witness :
    saveNotified 1 [⟨1, 7, "t", 0, some true⟩] =
        .ok ([⟨1, 7, "t", 0, some true⟩].map
          (fun x => if x.rid = 1 then markNotified x else x), 1) ∧
      saveNotified 2 [⟨1, 7, "t", 0, none⟩] = .error "No document found for query" ∧
      processLoop (fun _ => true) [⟨2, 8, "u", 0, none⟩] [⟨1, 7, "t", 0, none⟩] [] =
        processLoop (fun _ => true) [] [⟨1, 7, "t", 0, none⟩] ([] ++ [2]) := by
  refine ⟨?_, ?_, ?_⟩
  · exact c2_mark_unconditional_save.1 1 [⟨1, 7, "t", 0, some true⟩]
      ⟨1, 7, "t", 0, some true⟩ (by decide) rfl
  · exact c2_mark_unconditional_save.2.1 2 [⟨1, 7, "t", 0, none⟩] (by decide)
  · exact c2_mark_unconditional_save.2.2 (fun _ => true) ⟨2, 8, "u", 0, none⟩ []
      [⟨1, 7, "t", 0, none⟩] [] (by decide)

/-- C3 (as stated, refuted): starting the scheduler and then calling
`stopScheduler()` leaves the every-minute cron task scheduled, so a
future timer tick can still fire — `stopScheduler` does not prevent
future ticks. -/
theorem c3_counterexample :
    canTick (stopScheduler (startScheduler ⟨false, []⟩)) = true ∧
      (stopScheduler (startScheduler ⟨false, []⟩)).jobs = [cronEveryMinuteMs] :=
  ⟨rfl, rfl⟩

/-- C3 (amended): `stopScheduler()` only clears the `isRunning` flag and
logs; it destroys no scheduled cron task, so exactly the timer ticks that
could fire before the call can still fire after it. -/
theorem c3_stop_clears_flag_only (s : SchedulerState) :
    (stopScheduler s).isRunning = false ∧ (stopScheduler s).jobs = s.jobs ∧
      canTick (stopScheduler s) = canTick s :=
  ⟨rfl, rfl, rfl⟩

/-- C4 (as stated, refuted): `resetAllNotifications` does clear the flag
of a notified reminder, but a reminder whose `dueAt` lies in the past is
still not selected by the next scan — the window's `$gte: now` lower
bound excludes it. -/
theorem c4_counterexample :
    resetAll [⟨1, 7, "t", 1000, some true⟩] = [⟨1, 7, "t", 1000, none⟩] ∧
      scanDue 400000 (resetAll [⟨1, 7, "t", 1000, some true⟩]) = [] ∧
      (1000 : Nat) < 400000 :=
  ⟨rfl, rfl, by decide⟩

/-- C4 (amended): after `resetAllNotifications()` a previously notified
reminder is selected by the next scan exactly when its `dueAt` lies in
that scan's window `[now, now + 5 minutes]`; within the window the
cleared flag alone decides re-selection, but a `dueAt` already in the
past is not re-selected. -/
theorem c4_reset_roundtrip (now : Nat) (rs : List Reminder) (r : Reminder)
    (hr : r ∈ rs) (hn : r.notified = some true) :
    ({ r with notified := none } ∈ scanDue now (resetAll rs) ↔
      now ≤ r.datetime ∧ r.datetime ≤ now + lookaheadMs) := by
  constructor
  · intro hmem
    rw [scanDue, List.mem_filter] at hmem
    have h := hmem.2
    simp only [Bool.and_eq_true, decide_eq_true_eq] at h
    exact ⟨h.1.1, h.1.2⟩
  · rintro ⟨h1, h2⟩
    rw [scanDue, List.mem_filter]
    constructor
    · rw [resetAll]
      exact List.mem_map.mpr ⟨r, hr, by simp [hn]⟩
    · simp [h1, h2]

theorem c4_reset_roundtrip_witness :
    (⟨1, 7, "t", 60000, none⟩ : Reminder) ∈
      scanDue 0 (resetAll [⟨1, 7, "t", 60000, some true⟩]) :=
  (c4_reset_roundtrip 0 [⟨1, 7, "t", 60000, some true⟩] ⟨1, 7, "t", 60000, some true⟩
    (by decide) rfl).mpr (by decide)

/-- C5 (as stated, refuted): a reminder with `dueAt = now + 3 minutes`
(now = 0) and `notified = false` is not selected by a cycle run at
`now + 4 minutes`, although that cycle runs at or after `now`, the flag
is false, and `dueAt` is not more than 5 minutes in the future of the
cycle — the window's lower bound `$gte` excludes any reminder already
past due at scan time. -/
theorem c5_counterexample :
    scanDue 240000 [⟨1, 7, "t", 180000, some false⟩] = [] ∧
      (⟨1, 7, "t", 180000, some false⟩ : Reminder).notified ≠ some true ∧
      (180000 : Nat) ≤ 240000 + lookaheadMs :=
  ⟨rfl, by decide, by decide⟩

/-- C5 (amended): a scan run at time `t` selects a stored reminder
exactly when `t ≤ dueAt ≤ t + 5 minutes` and `notified ≠ true`; hence the
reminder with `dueAt = now + 3 minutes` and `notified = false` is
selected by cycles run at `t ∈ [now, dueAt]`, and excluded once
`notified` is true, once `dueAt` is more than 5 minutes after `t`, or
once `t` is past `dueAt`. -/
theorem c5_scan_characterization (t : Nat) (rs : List Reminder) (r : Reminder)
    (hr : r ∈ rs) :
    (r ∈ scanDue t rs ↔
      t ≤ r.datetime ∧ r.datetime ≤ t + lookaheadMs ∧ r.notified ≠ some true) := by
  rw [scanDue, List.mem_filter]
  simp [hr, and_assoc]

theorem c5_scan_characterization_witness :
    (⟨1, 7, "t", 180000, some false⟩ : Reminder) ∈
      scanDue 0 [⟨1, 7, "t", 180000, some false⟩] :=
  (c5_scan_characterization 0 [⟨1, 7, "t", 180000, some false⟩]
    ⟨1, 7, "t", 180000, some false⟩ (by decide)).mpr (by decide)

/-- C6: with three due reminders of distinct ids where the second one's
dispatch fails, the cycle still attempts all three in order, marks the
first and third notified, and leaves the second's flag untouched —
processing is strictly sequential and one failure never prevents the
rest. -/
theorem c6_partial_failure_isolation (now : Nat) (send : Nat → Bool)
    (r1 r2 r3 : Reminder)
    (h12 : r2.rid ≠ r1.rid) (h23 : r2.rid ≠ r3.rid)
    (ha1 : now ≤ r1.datetime) (hb1 : r1.datetime ≤ now + lookaheadMs)
    (hc1 : r1.notified ≠ some true)
    (ha2 : now ≤ r2.datetime) (hb2 : r2.datetime ≤ now + lookaheadMs)
    (hc2 : r2.notified ≠ some true)
    (ha3 : now ≤ r3.datetime) (hb3 : r3.datetime ≤ now + lookaheadMs)
    (hc3 : r3.notified ≠ some true)
    (hs1 : send r1.rid = true) (hs2 : send r2.rid = false) (hs3 : send r3.rid = true) :
    checkAndSendReminders true send now [r1, r2, r3] =
      ([markNotified r1, r2, markNotified r3], [r1.rid, r2.rid, r3.rid]) := by
  rw [checkAndSend_run_eq]
  have hscan : scanDue now [r1, r2, r3] = [r1, r2, r3] := by
    simp [scanDue, List.filter_cons, ha1, hb1, hc1, ha2, hb2, hc2, ha3, hb3, hc3]
  rw [hscan]
  have hok : okIds send [r1, r2, r3] = [r1.rid, r3.rid] := by
    simp [okIds, List.filter_cons, hs1, hs2, hs3]
  rw [hok]
  have hm1 : markIfMem [r1.rid, r3.rid] r1 = markNotified r1 := by
    simp [markIfMem]
  have hm2 : markIfMem [r1.rid, r3.rid] r2 = r2 := by
    simp [markIfMem, h12, h23]
  have hm3 : markIfMem [r1.rid, r3.rid] r3 = markNotified r3 := by
    simp [markIfMem]
  simp [hm1, hm2, hm3]

theorem c6_partial_failure_isolation_witness :
    checkAndSendReminders true (fun i => i != 2) 0
        [⟨1, 7, "a", 1000, none⟩, ⟨2, 8, "b", 2000, none⟩, ⟨3, 9, "c", 3000, some false⟩] =
      ([⟨1, 7, "a", 1000, some true⟩, ⟨2, 8, "b", 2000, none⟩,
        ⟨3, 9, "c", 3000, some true⟩], [1, 2, 3]) :=
  c6_partial_failure_isolation 0 (fun i => i != 2)
    ⟨1, 7, "a", 1000, none⟩ ⟨2, 8, "b", 2000, none⟩ ⟨3, 9, "c", 3000, some false⟩
    (by decide) (by decide)
    (by decide) (by decide) (by decide)
    (by decide) (by decide) (by decide)
    (by decide) (by decide) (by decide)
    (by decide) (by decide) (by decide)

/-- C7: a cycle whose store query rejects ends with the store unchanged
and no dispatch attempted (the outer catch aborts the whole cycle), and a
cycle whose scan yields zero reminders likewise ends with no side
effects. -/
theorem c7_scan_failure_or_empty (send : Nat → Bool) (now : Nat) (rs : List Reminder) :
    checkAndSendReminders false send now rs = (rs, []) ∧
      (scanDue now rs = [] → checkAndSendReminders true send now rs = (rs, [])) := by
  refine ⟨rfl, fun h => ?_⟩
  rw [checkAndSend_run_eq, h]
  have hfun : markIfMem [] = id := funext markIfMem_nil
  simp [okIds, hfun]

theorem c7_scan_failure_or_empty_witness :
    checkAndSendReminders false (fun _ => true) 0 [⟨1, 7, "t", 1000, none⟩] =
        ([⟨1, 7, "t", 1000, none⟩], []) ∧
      checkAndSendReminders true (fun _ => true) 0 [⟨1, 7, "t", 999999, none⟩] =
        ([⟨1, 7, "t", 999999, none⟩], []) :=
  ⟨(c7_scan_failure_or_empty (fun _ => true) 0 [⟨1, 7, "t", 1000, none⟩]).1,
    (c7_scan_failure_or_empty (fun _ => true) 0 [⟨1, 7, "t", 999999, none⟩]).2 rfl⟩

/-- C8: `startScheduler()` is idempotent — when the scheduler is already
running a second call returns the state unchanged (no second cron task);
otherwise it schedules the every-minute cron task and transitions to
running. -/
theorem c8_start_idempotent (s : SchedulerState) :
    (s.isRunning = true → startScheduler s = s) ∧
      (s.isRunning = false →
        (startScheduler s).isRunning = true ∧
          (startScheduler s).jobs = cronEveryMinuteMs :: s.jobs) := by
  constructor
  · intro h
    simp [startScheduler, h]
  · intro h
    simp [startScheduler, h]

theorem c8_start_idempotent_witness :
    startScheduler ⟨true, [cronEveryMinuteMs]⟩ = ⟨true, [cronEveryMinuteMs]⟩ ∧
      ((startScheduler ⟨false, []⟩).isRunning = true ∧
        (startScheduler ⟨false, []⟩).jobs = [cronEveryMinuteMs]) :=
  ⟨(c8_start_idempotent ⟨true, [cronEveryMinuteMs]⟩).1 rfl,
    (c8_start_idempotent ⟨false, []⟩).2 rfl⟩

/-- C9: the promises of `checkAndSendReminders`, `triggerManualCheck` and
`resetAllNotifications` always resolve successfully — every failure,
including a store query or update error, is caught inside, for every
input state and every oracle outcome. -/
theorem c9_operations_never_reject (storeUp : Bool) (send : Nat → Bool) (now : Nat)
    (rs : List Reminder) :
    (checkAndSendRemindersE storeUp send now rs).isOk = true ∧
      (triggerManualCheckE storeUp send now rs).isOk = true ∧
      (resetAllNotificationsE storeUp rs).isOk = true := by
  refine ⟨?_, ?_, ?_⟩ <;> cases storeUp <;>
    simp [checkAndSendRemindersE, triggerManualCheckE, resetAllNotificationsE,
      checkBody, Except.isOk, Except.toBool]

theorem digitChar_lt_iff :
    ∀ i < 10, ∀ j < 10, (digitChar i < digitChar j ↔ i < j) := by
  decide

theorem charLexLt_cons_self (c : Char) (xs ys : List Char) :
    charLexLt (c :: xs) (c :: ys) = charLexLt xs ys := by
  have h : ¬(c < c) := lt_irrefl c
  simp [charLexLt, h]

theorem if_lex_congr (x y : Nat) (A B : Bool) (h : x = y → A = B) :
    (if x < y then true else if y < x then false else A) =
      (if x < y then true else if y < x then false else B) := by
  rcases Nat.lt_trichotomy x y with h1 | h1 | h1
  · rw [if_pos h1, if_pos h1]
  · have hn : ¬(x < y) := by omega
    have hn' : ¬(y < x) := by omega
    rw [if_neg hn, if_neg hn', if_neg hn, if_neg hn', h h1]
  · have hn : ¬(x < y) := by omega
    rw [if_neg hn, if_pos h1, if_neg hn, if_pos h1]

/-- Comparing two equal-width zero-padded numerals embedded in longer
strings: the lexicographic comparison decides by the numeral values and
falls through to the suffixes only when the values are equal. -/
theorem padNum_lex (w : Nat) :
    ∀ a b, a < 10 ^ w → b < 10 ^ w → ∀ xs ys,
      charLexLt (padNum w a ++ xs) (padNum w b ++ ys) =
        (if a < b then true else if b < a then false else charLexLt xs ys) := by
  induction w with
  | zero =>
    intro a b ha hb xs ys
    have ha0 : a = 0 := by simpa using Nat.lt_one_iff.mp (by simpa using ha)
    have hb0 : b = 0 := by simpa using Nat.lt_one_iff.mp (by simpa using hb)
    subst ha0; subst hb0
    simp [padNum]
  | succ w ih =>
    intro a b ha hb xs ys
    have hpow : 0 < 10 ^ w := Nat.pow_pos (by norm_num)
    have hda : a / 10 ^ w < 10 := Nat.div_lt_of_lt_mul (by rw [← pow_succ]; exact ha)
    have hdb : b / 10 ^ w < 10 := Nat.div_lt_of_lt_mul (by rw [← pow_succ]; exact hb)
    have hma : a % 10 ^ w < 10 ^ w := Nat.mod_lt _ hpow
    have hmb : b % 10 ^ w < 10 ^ w := Nat.mod_lt _ hpow
    have hdiga : a / 10 ^ w % 10 = a / 10 ^ w := Nat.mod_eq_of_lt hda
    have hdigb : b / 10 ^ w % 10 = b / 10 ^ w := Nat.mod_eq_of_lt hdb
    have h1 := Nat.div_add_mod a (10 ^ w)
    have h2 := Nat.div_add_mod b (10 ^ w)
    simp only [padNum, List.cons_append, charLexLt, List.append_eq, hdiga, hdigb]
    rcases Nat.lt_trichotomy (a / 10 ^ w) (b / 10 ^ w) with hlt | heq | hgt
    · have hab : a < b := by
        calc a < 10 ^ w * (a / 10 ^ w) + 10 ^ w := by omega
          _ = 10 ^ w * (a / 10 ^ w + 1) := by ring
          _ ≤ 10 ^ w * (b / 10 ^ w) := Nat.mul_le_mul_left _ hlt
          _ ≤ b := by omega
      rw [if_pos ((digitChar_lt_iff _ hda _ hdb).mpr hlt), if_pos hab]
    · rw [heq] at h1 ⊢
      have hirr : ¬(digitChar (b / 10 ^ w) < digitChar (b / 10 ^ w)) := fun hc =>
        absurd ((digitChar_lt_iff _ hdb _ hdb).mp hc) (lt_irrefl _)
      rw [if_neg hirr, if_neg hirr, ih (a % 10 ^ w) (b % 10 ^ w) hma hmb xs ys]
      have k1 : a < b ↔ a % 10 ^ w < b % 10 ^ w := by omega
      have k2 : b < a ↔ b % 10 ^ w < a % 10 ^ w := by omega
      by_cases hx : a % 10 ^ w < b % 10 ^ w
      · rw [if_pos hx, if_pos (k1.mpr hx)]
      · by_cases hy : b % 10 ^ w < a % 10 ^ w
        · rw [if_neg hx, if_pos hy, if_neg (fun hc => hx (k1.mp hc)), if_pos (k2.mpr hy)]
        · rw [if_neg hx, if_neg hy, if_neg (fun hc => hx (k1.mp hc)),
            if_neg (fun hc => hy (k2.mp hc))]
    · have hba : b < a := by
        calc b < 10 ^ w * (b / 10 ^ w) + 10 ^ w := by omega
          _ = 10 ^ w * (b / 10 ^ w + 1) := by ring
          _ ≤ 10 ^ w * (a / 10 ^ w) := Nat.mul_le_mul_left _ hgt
          _ ≤ a := by omega
      have hnd : ¬(digitChar (a / 10 ^ w) < digitChar (b / 10 ^ w)) := fun hc =>
        absurd ((digitChar_lt_iff _ hda _ hdb).mp hc) (by omega)
      rw [if_neg hnd, if_pos ((digitChar_lt_iff _ hdb _ hda).mpr hgt),
        if_neg (show ¬(a < b) by omega), if_pos hba]

/-- The lexicographic order of two fixed-width ISO-8601 renderings equals
the lexicographic order of the calendar components. -/
theorem isoChars_lex_eq (a b : DateTime) (ha : a.Valid) (hb : b.Valid) :
    charLexLt a.isoChars b.isoChars = natLexLt a.comps b.comps := by
  obtain ⟨ha1, ha2, ha3, ha4, ha5, ha6, ha7, ha8, ha9⟩ := ha
  obtain ⟨hb1, hb2, hb3, hb4, hb5, hb6, hb7, hb8, hb9⟩ := hb
  have p2 : (10 : Nat) ^ 2 = 100 := by norm_num
  have p3 : (10 : Nat) ^ 3 = 1000 := by norm_num
  have p4 : (10 : Nat) ^ 4 = 10000 := by norm_num
  unfold DateTime.isoChars DateTime.comps
  rw [padNum_lex 4 a.year b.year (by omega) (by omega)]
  simp only [natLexLt]
  apply if_lex_congr; intro hy
  rw [charLexLt_cons_self, padNum_lex 2 a.month b.month (by omega) (by omega)]
  apply if_lex_congr; intro hmo
  rw [charLexLt_cons_self, padNum_lex 2 a.day b.day (by omega) (by omega)]
  apply if_lex_congr; intro hd
  rw [charLexLt_cons_self, padNum_lex 2 a.hour b.hour (by omega) (by omega)]
  apply if_lex_congr; intro hh
  rw [charLexLt_cons_self, padNum_lex 2 a.minute b.minute (by omega) (by omega)]
  apply if_lex_congr; intro hmi
  rw [charLexLt_cons_self, padNum_lex 2 a.second b.second (by omega) (by omega)]
  apply if_lex_congr; intro hs
  rw [charLexLt_cons_self, padNum_lex 3 a.ms b.ms (by omega) (by omega)]
  apply if_lex_congr; intro hms
  decide

/-- C10: for instants in the fixed-width era (years 0–9999, where
`toISOString` renders `YYYY-MM-DDTHH:mm:ss.sssZ`), byte-wise
lexicographic comparison of the renderings coincides with chronological
order, both strictly and non-strictly; hence the `$gte`/`$lte` range test
on the rendered strings selects exactly the instants chronologically
inside the window. -/
theorem c10_iso_lex_agrees_chrono (a b hi : DateTime)
    (ha : a.Valid) (hb : b.Valid) (hhi : hi.Valid) :
    charLexLt a.isoChars b.isoChars = DateTime.chronoLt a b ∧
      (charLexLe a.isoChars b.isoChars && charLexLe b.isoChars hi.isoChars) =
        (DateTime.chronoLe a b && DateTime.chronoLe b hi) := by
  refine ⟨isoChars_lex_eq a b ha hb, ?_⟩
  unfold charLexLe DateTime.chronoLe
  rw [isoChars_lex_eq b a hb ha, isoChars_lex_eq hi b hhi hb]
  rfl

theorem c10_iso_lex_agrees_chrono_witness :
    charLexLt (DateTime.isoChars ⟨2024, 6, 15, 10, 30, 0, 5⟩)
        (DateTime.isoChars ⟨2024, 6, 15, 10, 30, 1, 0⟩) = true := by
  have hv1 : DateTime.Valid ⟨2024, 6, 15, 10, 30, 0, 5⟩ := by
    unfold DateTime.Valid; decide
  have hv2 : DateTime.Valid ⟨2024, 6, 15, 10, 30, 1, 0⟩ := by
    unfold DateTime.Valid; decide
  have h := (c10_iso_lex_agrees_chrono ⟨2024, 6, 15, 10, 30, 0, 5⟩
    ⟨2024, 6, 15, 10, 30, 1, 0⟩ ⟨2024, 6, 15, 10, 30, 1, 0⟩ hv1 hv2 hv2).1
  rw [h]
  decide
